import Mathlib

/-
  Shallow embedding of the HealthVault client-side auth core:
  the Session Context provider (src/components/auth-provider.tsx) and the
  Auth Dialog state machine (AuthModal in src/unnamed/part_000).

  The external auth backend is a black box: each operation takes the outcome
  of its backend call as an explicit parameter of type Except String X, where
  Except.error models a thrown exception and Except.ok models a settled
  result. Durable client storage (the localStorage key healthvault_token) is
  modelled as the token field of SessionState. Toast notifications are pure
  side effects with no state impact and are not modelled.
-/

namespace HealthVault

inductive UserRole where
  | patient
  | doctor
  deriving DecidableEq, Repr

/-- An authenticated user as held by the Session Context. The auth backend
returns richer profile data; only the fields the embedded code inspects
(id for the updateProfile guard, role for redirect targets) are kept. -/
structure AuthUser where
  id : String
  email : String
  role : UserRole
  deriving DecidableEq, Repr

/-- The plain success-message result shape returned by registerUser, sendOTP,
verifyOTPAndLogin (after projection) and updateProfile. -/
structure OpResult where
  success : Bool
  message : String
  deriving DecidableEq, Repr

/-- The backend result shape of verifyRegistration and verifyOTPAndLogin,
with optional user and token fields. -/
structure AuthResult where
  success : Bool
  message : String
  user : Option AuthUser
  token : Option String
  deriving DecidableEq, Repr

/-- The Session Context state: the nullable session user held in React state,
and the durable client storage slot for the healthvault_token key. -/
structure SessionState where
  user : Option AuthUser
  token : Option String
  deriving DecidableEq, Repr

/-- Embeds registerUser of auth-provider.tsx lines 46 to 54: pass-through of
the backend result, with exceptions converted to a generic failure. -/
def registerUser (backend : Except String OpResult) (s : SessionState) :
    OpResult × SessionState :=
  match backend with
  | Except.ok r => (r, s)
  | Except.error _ =>
    ({ success := false, message := "Registration failed. Please try again." }, s)

/-- JS truthiness of the optional token string: a missing token and an
empty-string token are both falsy. -/
def tokenTruthy : Option String → Bool
  | none => false
  | some t => decide (¬ t = "")

/-- Embeds verifyRegistration of auth-provider.tsx lines 56 to 69: on a
successful result carrying a user and a truthy token, the session user is
set and the token written to storage; the backend result is returned
unchanged. The source guard at line 60 is the JS truthiness test
result.success and result.user and result.token, so a present user object
is always truthy, while an empty-string token is falsy and skips the
branch. -/
def verifyRegistration (backend : Except String AuthResult) (s : SessionState) :
    AuthResult × SessionState :=
  match backend with
  | Except.ok r =>
    if r.success && r.user.isSome && tokenTruthy r.token then
      (r, { user := r.user, token := r.token })
    else
      (r, s)
  | Except.error _ =>
    ({ success := false, message := "Verification failed. Please try again.",
       user := none, token := none }, s)

/-- Embeds sendOTP of auth-provider.tsx lines 71 to 79: pass-through of the
backend result, with exceptions converted to a generic failure. -/
def sendOTP (backend : Except String OpResult) (s : SessionState) :
    OpResult × SessionState :=
  match backend with
  | Except.ok r => (r, s)
  | Except.error _ =>
    ({ success := false, message := "Failed to send OTP. Please try again." }, s)

/-- Embeds verifyOTPAndLogin of auth-provider.tsx lines 81 to 92: on success
with a user, the session user is set; only success and message are returned. -/
def verifyOTPAndLogin (backend : Except String AuthResult) (s : SessionState) :
    OpResult × SessionState :=
  match backend with
  | Except.ok r =>
    if r.success && r.user.isSome then
      ({ success := r.success, message := r.message },
       { user := r.user, token := s.token })
    else
      ({ success := r.success, message := r.message }, s)
  | Except.error _ =>
    ({ success := false, message := "Login failed. Please try again." }, s)

/-- Embeds logout of auth-provider.tsx lines 94 to 101. Note the source has
setUser null inside the try block, after the awaited backend call: when the
backend call throws, the catch only logs and the session user is untouched. -/
def logout (backend : Except String Unit) (s : SessionState) : SessionState :=
  match backend with
  | Except.ok _ => { user := none, token := s.token }
  | Except.error _ => s

/-- Embeds refreshSession of auth-provider.tsx lines 103 to 111: the session
user is replaced by the fetched current user, and cleared on any exception. -/
def refreshSession (backend : Except String (Option AuthUser))
    (s : SessionState) : SessionState :=
  match backend with
  | Except.ok current => { user := current, token := s.token }
  | Except.error _ => { user := none, token := s.token }

/-- Embeds updateProfile of auth-provider.tsx lines 113 to 129: a falsy
user id (no user, or empty id string) fails fast with no backend call; on
backend success the session is refreshed; exceptions become a generic
failure. The refresh backend outcome is a second explicit parameter. -/
def updateProfile (backend : Except String OpResult)
    (refreshBackend : Except String (Option AuthUser)) (s : SessionState) :
    OpResult × SessionState :=
  match s.user with
  | none => ({ success := false, message := "No user logged in" }, s)
  | some u =>
    if u.id = "" then
      ({ success := false, message := "No user logged in" }, s)
    else
      match backend with
      | Except.ok r =>
        if r.success then (r, refreshSession refreshBackend s) else (r, s)
      | Except.error _ =>
        ({ success := false,
           message := "Failed to update profile. Please try again." }, s)

/-- The active tab of the Auth Dialog. -/
inductive Tab where
  | login
  | register
  deriving DecidableEq, Repr

/-- The wizard step of the Auth Dialog. -/
inductive Step where
  | form
  | otp
  deriving DecidableEq, Repr

/-- The discriminated profile payload built in handleSendOTP, part_000 lines
96 to 98: patient and doctor shapes are separate constructors, so a payload
can never carry both field sets at once. -/
inductive Profile where
  | patientProfile (phone : String) (dateOfBirth : String) (address : String)
  | doctorProfile (phone : String) (specialization : String)
      (licenseNumber : String) (experience : Int)
  deriving DecidableEq, Repr

def isPatientShape : Profile → Bool
  | Profile.patientProfile _ _ _ => true
  | _ => false

def isDoctorShape : Profile → Bool
  | Profile.doctorProfile _ _ _ _ => true
  | _ => false

/-- The local state of the AuthModal component, part_000 lines 37 to 52. -/
structure DialogState where
  activeTab : Tab
  step : Step
  email : String
  otp : String
  isLoading : Bool
  timer : Int
  fullName : String
  role : UserRole
  phone : String
  dateOfBirth : String
  address : String
  specialization : String
  licenseNumber : String
  experience : String
  deriving DecidableEq, Repr

def digitsToNat (ds : List Char) : Nat :=
  ds.foldl (fun a c => a * 10 + (c.toNat - 48)) 0

/-- Embeds the expression parseInt(experience) or-else 0 of part_000 line 98:
leading spaces skipped, an optional minus sign, then as many decimal digits
as possible; an unparsable string (NaN in the source) yields 0. -/
def parseIntOrZero (s : String) : Int :=
  match s.data.dropWhile (fun c => c = ' ') with
  | [] => 0
  | List.cons c rest =>
    if c = '-' then
      match rest.takeWhile Char.isDigit with
      | [] => 0
      | ds => -(digitsToNat ds : Int)
    else
      match (List.cons c rest).takeWhile Char.isDigit with
      | [] => 0
      | ds => (digitsToNat ds : Int)

/-- Embeds the role-conditional profile construction of part_000 lines 96 to
98. -/
def buildProfile (d : DialogState) : Profile :=
  match d.role with
  | UserRole.patient => Profile.patientProfile d.phone d.dateOfBirth d.address
  | UserRole.doctor =>
    Profile.doctorProfile d.phone d.specialization d.licenseNumber
      (parseIntOrZero d.experience)

/-- One backend invocation observable from the dialog, with its arguments. -/
inductive BackendCall where
  | register (email : String) (fullName : String) (role : UserRole)
      (profile : Profile)
  | sendLoginOTP (email : String)
  | verifyRegistration (email : String) (otp : String)
  | verifyLoginOTP (email : String) (otp : String)
  deriving DecidableEq, Repr

/-- Embeds resetForm of part_000 lines 58 to 70. The source resets step,
email, otp, fullName, phone, dateOfBirth, address, specialization,
licenseNumber, experience and timer; it does not touch role, activeTab or
isLoading. -/
def resetForm (d : DialogState) : DialogState :=
  { d with step := Step.form, email := "", otp := "", fullName := "",
           phone := "", dateOfBirth := "", address := "",
           specialization := "", licenseNumber := "", experience := "",
           timer := 0 }

/-- Embeds handleSendOTP of part_000 lines 72 to 159, the Initiate operation.
The second component is the backend call made, none when validation blocks
it. The parameter result is the outcome the Session Context operation
returned for that call (those operations never throw, so an OpResult). On a
successful result the step becomes otp and the timer restarts at 60; the
loading flag, raised at entry, is always lowered by the finally block. -/
def handleSendOTP (isLogin : Bool) (result : OpResult) (d : DialogState) :
    DialogState × Option BackendCall :=
  if d.email = "" then (d, none)
  else if isLogin = false ∧ d.fullName = "" then (d, none)
  else
    let call : BackendCall :=
      if isLogin then BackendCall.sendLoginOTP d.email
      else BackendCall.register d.email d.fullName d.role (buildProfile d)
    if result.success then
      ({ d with step := Step.otp, timer := 60, isLoading := false }, some call)
    else
      ({ d with isLoading := false }, some call)

/-- Embeds handleResendOTP of part_000 lines 247 to 251: only when the timer
is exactly 0 is Initiate re-invoked, with isLogin derived from the active
tab; otherwise nothing happens at all. -/
def handleResendOTP (result : OpResult) (d : DialogState) :
    DialogState × Option BackendCall :=
  if d.timer = 0 then
    handleSendOTP (decide (d.activeTab = Tab.login)) result d
  else (d, none)

/-- Embeds handleBackToForm of part_000 lines 253 to 257: back to the form
step, the entered code and the cooldown cleared, everything else kept. -/
def handleBackToForm (d : DialogState) : DialogState :=
  { d with step := Step.form, otp := "", timer := 0 }

/-- Embeds the otp Input onChange handler of part_000 line 288: non-digit
characters removed, then truncated to the first 6 characters. -/
def sanitizeOtpInput (raw : String) : String :=
  String.mk ((raw.data.filter Char.isDigit).take 6)

/-- A string consisting of exactly 6 decimal digits. -/
def isSixDigits (s : String) : Bool :=
  s.length == 6 && s.data.all Char.isDigit

/-- The role-dependent dashboard route of part_000 lines 193 and 221. -/
def dashboardPathFor (role : UserRole) : String :=
  match role with
  | UserRole.doctor => "/doctor/dashboard"
  | UserRole.patient => "/patient/dashboard"

/-- The observable outcome of one Verify attempt: the dialog state, the
Session Context state, the backend call made (if any) and the scheduled
redirect target (if any). -/
structure VerifyStep where
  dialog : DialogState
  session : SessionState
  call : Option BackendCall
  redirect : Option String
  deriving DecidableEq, Repr

/-- Embeds handleVerifyOTP of part_000 lines 161 to 245, composed with the
Session Context operation the active tab dispatches to. A code of length
other than 6 blocks any backend call. On success the dialog closes and
resets and a redirect is scheduled; the registration path picks the route
from the role field, the login path from the session user captured before
the call (the stale-closure read of authUser at line 220), falling back to
the patient dashboard. The finally block lowers the loading flag. -/
def handleVerifyOTP (backend : Except String AuthResult) (d : DialogState)
    (s : SessionState) : VerifyStep :=
  if d.otp.length ≠ 6 then
    { dialog := d, session := s, call := none, redirect := none }
  else if d.activeTab = Tab.register then
    let stepResult := verifyRegistration backend s
    if stepResult.1.success then
      { dialog := { resetForm d with isLoading := false }
        session := stepResult.2
        call := some (BackendCall.verifyRegistration d.email d.otp)
        redirect := some (dashboardPathFor d.role) }
    else
      { dialog := { d with isLoading := false }
        session := stepResult.2
        call := some (BackendCall.verifyRegistration d.email d.otp)
        redirect := none }
  else
    let stepResult := verifyOTPAndLogin backend s
    if stepResult.1.success then
      { dialog := { resetForm d with isLoading := false }
        session := stepResult.2
        call := some (BackendCall.verifyLoginOTP d.email d.otp)
        redirect := some (match s.user with
          | some au => dashboardPathFor au.role
          | none => "/patient/dashboard") }
    else
      { dialog := { d with isLoading := false }
        session := stepResult.2
        call := some (BackendCall.verifyLoginOTP d.email d.otp)
        redirect := none }

/-- Embeds one firing of the countdown interval callback of part_000 lines
140 to 148: at 1 or below the interval clears itself (second component true)
and the timer becomes 0; otherwise the timer decreases by 1. -/
def tick (t : Int) : Int × Bool :=
  if t ≤ 1 then (0, true) else (t - 1, false)

/-- The timer value after n firings of the interval callback, from t. -/
def tickN (t : Int) : Nat → Int
  | 0 => t
  | Nat.succ n => (tick (tickN t n)).1

/-- The timer value after n one-second ticks following a successful
Initiate, which sets the timer to 60. -/
def timerAfter (n : Nat) : Int := tickN 60 n

/-- Sample user for concrete instantiations. -/
def demoUser : AuthUser :=
  { id := "u1", email := "a@b.com", role := UserRole.patient }

/-- Sample doctor user for concrete instantiations. -/
def demoDoctor : AuthUser :=
  { id := "d1", email := "d@x.com", role := UserRole.doctor }

/-- A dialog state on the register tab with a filled doctor draft, sitting on
the otp step with a partially run cooldown. -/
def doctorDraftState : DialogState :=
  { activeTab := Tab.register, step := Step.otp, email := "d@x.com",
    otp := "123456", isLoading := false, timer := 30, fullName := "Dr. X",
    role := UserRole.doctor, phone := "555", dateOfBirth := "",
    address := "", specialization := "Cardiology", licenseNumber := "L1",
    experience := "5" }

/-- An empty session for concrete instantiations. -/
def emptySession : SessionState := { user := none, token := none }

/-- A fresh dialog state on the login tab with only the email entered. -/
def loginDraftState : DialogState :=
  { activeTab := Tab.login, step := Step.form, email := "a@b.com",
    otp := "", isLoading := false, timer := 0, fullName := "",
    role := UserRole.patient, phone := "", dateOfBirth := "",
    address := "", specialization := "", licenseNumber := "",
    experience := "" }

/-- On a non-empty draft and a successful backend result, Initiate moves to
the otp step, restarts the timer at 60 and emits the tab-appropriate
backend call. -/
theorem handleSendOTP_success (isLogin : Bool) (d : DialogState)
    (r : OpResult) (hr : r.success = true) (he : ¬ d.email = "")
    (hn : isLogin = false → ¬ d.fullName = "") :
    handleSendOTP isLogin r d =
      ({ d with step := Step.otp, timer := 60, isLoading := false },
       some (if isLogin then BackendCall.sendLoginOTP d.email
             else BackendCall.register d.email d.fullName d.role
               (buildProfile d))) := by
  unfold handleSendOTP
  rw [if_neg he, if_neg (by
    intro hcontra
    exact hn hcontra.1 hcontra.2), if_pos hr]

/-- Closed form of the countdown iteration: from a non-negative start the
timer after n ticks is the start minus n, floored at 0. -/
theorem tickN_max (t : Int) (ht : 0 ≤ t) (n : Nat) :
    tickN t n = max (t - n) 0 := by
  induction n with
  | zero =>
    simp only [tickN, Nat.cast_zero, sub_zero]
    omega
  | succ n ih =>
    simp only [tickN, tick, ih]
    split <;> push_cast <;> omega

/-- Every character of a sanitized OTP entry is a decimal digit. -/
theorem sanitize_all_digits (raw : String) :
    ((sanitizeOtpInput raw).data.all Char.isDigit) = true := by
  simp only [sanitizeOtpInput, List.all_eq_true]
  intro c hc
  exact (List.mem_filter.mp (List.mem_of_mem_take hc)).2

/-- Claim C1 counterexample: with the session user present and the backend
logout call throwing, the logout operation leaves the session user in place,
so the user is not cleared regardless of the backend outcome. -/
theorem logout_counterexample :
    (logout (Except.error "network down")
        { user := some demoUser, token := none }).user = some demoUser ∧
      some demoUser ≠ (none : Option AuthUser) := by
  exact ⟨rfl, by decide⟩

/-- Claim C1 (amended): the logout operation clears the session user when
the backend call succeeds; when the backend call throws, the exception is
caught and only logged, and the whole session state is left unchanged. -/
theorem logout_spec (s : SessionState) (e : String) :
    (logout (Except.ok ()) s).user = none ∧
      logout (Except.error e) s = s :=
  ⟨rfl, rfl⟩

/-- Claim C2 counterexample: resetForm never resets the role field, so
closing the dialog from a doctor-role draft leaves role at doctor instead
of the default patient. -/
theorem resetForm_counterexample :
    (resetForm doctorDraftState).role = UserRole.doctor ∧
      UserRole.doctor ≠ UserRole.patient := by
  exact ⟨rfl, by decide⟩

/-- Claim C2 (amended): Close/Reset clears email, full name, phone,
date-of-birth, address, specialization, license number, experience, the OTP
code and the cooldown timer back to their defaults and resets the wizard
step to form, while the role field and the active tab are preserved rather
than reset; the operation only touches dialog-local state, so the Session
Context is unchanged. -/
theorem resetForm_spec (d : DialogState) :
    (resetForm d).step = Step.form ∧ (resetForm d).email = "" ∧
      (resetForm d).otp = "" ∧ (resetForm d).fullName = "" ∧
      (resetForm d).phone = "" ∧ (resetForm d).dateOfBirth = "" ∧
      (resetForm d).address = "" ∧ (resetForm d).specialization = "" ∧
      (resetForm d).licenseNumber = "" ∧ (resetForm d).experience = "" ∧
      (resetForm d).timer = 0 ∧ (resetForm d).role = d.role ∧
      (resetForm d).activeTab = d.activeTab :=
  ⟨rfl, rfl, rfl, rfl, rfl, rfl, rfl, rfl, rfl, rfl, rfl, rfl, rfl⟩

/-- Claim C10: registerUser and sendOTP return the backend result (or a
caught generic failure) and leave the session user and the persisted token
storage unchanged on every backend outcome. -/
theorem register_sendOTP_frame (backend : Except String OpResult)
    (s : SessionState) :
    (registerUser backend s).2 = s ∧ (sendOTP backend s).2 = s := by
  cases backend <;> exact ⟨rfl, rfl⟩

/-- Claim C4: on a thrown backend exception, every Session Context operation
catches it; the result-returning ones return success false with their
generic message, logout leaves the state as it was, and refreshSession
fails closed by clearing the user. No operation re-raises: all are total
functions of the backend outcome. -/
theorem ops_exception_contract (e : String) (s s2 : SessionState)
    (u : AuthUser) (rf : Except String (Option AuthUser))
    (hu : s.user = some u) (hid : ¬ u.id = "") :
    (registerUser (Except.error e) s2).1 =
        { success := false, message := "Registration failed. Please try again." }
    ∧ (verifyRegistration (Except.error e) s2).1 =
        { success := false, message := "Verification failed. Please try again.",
          user := none, token := none }
    ∧ (sendOTP (Except.error e) s2).1 =
        { success := false, message := "Failed to send OTP. Please try again." }
    ∧ (verifyOTPAndLogin (Except.error e) s2).1 =
        { success := false, message := "Login failed. Please try again." }
    ∧ (updateProfile (Except.error e) rf s).1 =
        { success := false,
          message := "Failed to update profile. Please try again." }
    ∧ logout (Except.error e) s2 = s2
    ∧ refreshSession (Except.error e) s2 = { user := none, token := s2.token } := by
  refine ⟨rfl, rfl, rfl, rfl, ?_, rfl, rfl⟩
  simp only [updateProfile, hu, if_neg hid]

/-- Claim C4 witness at a concrete logged-in session and thrown backend. -/
theorem ops_exception_contract_witness :
    (registerUser (Except.error "boom")
        { user := none, token := none }).1 =
        { success := false, message := "Registration failed. Please try again." }
    ∧ (verifyRegistration (Except.error "boom")
        { user := none, token := none }).1 =
        { success := false, message := "Verification failed. Please try again.",
          user := none, token := none }
    ∧ (sendOTP (Except.error "boom")
        { user := none, token := none }).1 =
        { success := false, message := "Failed to send OTP. Please try again." }
    ∧ (verifyOTPAndLogin (Except.error "boom")
        { user := none, token := none }).1 =
        { success := false, message := "Login failed. Please try again." }
    ∧ (updateProfile (Except.error "boom") (Except.ok none)
        { user := some demoUser, token := none }).1 =
        { success := false,
          message := "Failed to update profile. Please try again." }
    ∧ logout (Except.error "boom") { user := none, token := none } =
        { user := none, token := none }
    ∧ refreshSession (Except.error "boom") { user := none, token := none } =
        { user := none,
          token := SessionState.token { user := none, token := none } } :=
  ops_exception_contract "boom" { user := some demoUser, token := none }
    { user := none, token := none } demoUser (Except.ok none) rfl (by decide)

/-- Claim C5 counterexample: a backend result with success true that
includes both a user and a token, the token being the empty string, fails
the truthiness guard of auth-provider.tsx line 60: the result is passed
through but the session user is not set and no token is persisted, against
the claim, which covers every included token. -/
theorem verifyRegistration_empty_token_counterexample :
    verifyRegistration
        (Except.ok { success := true, message := "ok",
                     user := some demoDoctor, token := some "" })
        emptySession =
      ({ success := true, message := "ok",
         user := some demoDoctor, token := some "" }, emptySession)
    ∧ emptySession.user = none := by
  exact ⟨by simp [verifyRegistration, tokenTruthy], rfl⟩

/-- Claim C5 (amended): when the backend verifyRegistration result is
successful and carries a user and a non-empty token, the Session Context
sets the session user to that user, persists the token, and returns the
backend result unchanged; in the dialog, on the register tab with a
doctor-role draft and a full 6-character code, the composed Verify step
stores that session, emits only the single verifyRegistration backend
call, and schedules a redirect straight to the doctor dashboard with no
second login step. -/
theorem verifyRegistration_success_spec (r : AuthResult) (u : AuthUser)
    (t : String) (s : SessionState) (d : DialogState)
    (hs : r.success = true) (hu : r.user = some u) (ht : r.token = some t)
    (htne : ¬ t = "") (htab : d.activeTab = Tab.register)
    (hrole : d.role = UserRole.doctor) (hlen : d.otp.length = 6) :
    verifyRegistration (Except.ok r) s = (r, { user := some u, token := some t })
    ∧ handleVerifyOTP (Except.ok r) d s =
        { dialog := { resetForm d with isLoading := false }
          session := { user := some u, token := some t }
          call := some (BackendCall.verifyRegistration d.email d.otp)
          redirect := some "/doctor/dashboard" } := by
  have htok : tokenTruthy (some t) = true := by
    simp [tokenTruthy, htne]
  have hver : verifyRegistration (Except.ok r) s =
      (r, { user := some u, token := some t }) := by
    simp only [verifyRegistration, hs, hu, ht, htok, Option.isSome_some,
      Bool.and_self, Bool.true_and, Bool.and_true, if_true]
  refine ⟨hver, ?_⟩
  unfold handleVerifyOTP
  rw [if_neg (by omega), if_pos htab]
  simp only [hver, hs, if_true, hrole, dashboardPathFor]

/-- Claim C5 witness: the doctor-registration run at concrete values. -/
theorem verifyRegistration_success_spec_witness :
    verifyRegistration
        (Except.ok { success := true, message := "ok",
                     user := some demoDoctor, token := some "tok" })
        { user := none, token := none } =
      ({ success := true, message := "ok",
         user := some demoDoctor, token := some "tok" },
       { user := some demoDoctor, token := some "tok" })
    ∧ handleVerifyOTP
        (Except.ok { success := true, message := "ok",
                     user := some demoDoctor, token := some "tok" })
        doctorDraftState { user := none, token := none } =
        { dialog := { resetForm doctorDraftState with isLoading := false }
          session := { user := some demoDoctor, token := some "tok" }
          call := some (BackendCall.verifyRegistration
            doctorDraftState.email doctorDraftState.otp)
          redirect := some "/doctor/dashboard" } :=
  verifyRegistration_success_spec
    { success := true, message := "ok",
      user := some demoDoctor, token := some "tok" }
    demoDoctor "tok" { user := none, token := none } doctorDraftState
    rfl rfl rfl (by decide) rfl rfl (by decide)

/-- Claim C6: a successful Initiate sets the cooldown timer to 60; each
subsequent tick strictly decreases it by 1 until it reaches 0, after which
further ticks leave it at 0 and the interval that reaches 0 cancels itself;
the timer value is never negative. -/
theorem timer_countdown_spec (isLogin : Bool) (d : DialogState)
    (r : OpResult) (hr : r.success = true) (he : ¬ d.email = "")
    (hn : isLogin = false → ¬ d.fullName = "") :
    (handleSendOTP isLogin r d).1.timer = 60
    ∧ (∀ n : Nat, n < 60 → timerAfter (n + 1) = timerAfter n - 1)
    ∧ (∀ n : Nat, 60 ≤ n → timerAfter n = 0)
    ∧ (∀ n : Nat, 0 ≤ timerAfter n)
    ∧ tick 0 = (0, true) := by
  refine ⟨?_, ?_, ?_, ?_, ?_⟩
  · rw [handleSendOTP_success isLogin d r hr he hn]
  · intro n hlt
    unfold timerAfter
    rw [tickN_max 60 (by omega) (n + 1), tickN_max 60 (by omega) n]
    push_cast
    omega
  · intro n hge
    unfold timerAfter
    rw [tickN_max 60 (by omega) n]
    omega
  · intro n
    unfold timerAfter
    rw [tickN_max 60 (by omega) n]
    omega
  · rfl

/-- Claim C6 witness: the login flow at a concrete email and result. -/
theorem timer_countdown_spec_witness :
    (handleSendOTP true { success := true, message := "sent" }
        loginDraftState).1.timer = 60
    ∧ (∀ n : Nat, n < 60 → timerAfter (n + 1) = timerAfter n - 1)
    ∧ (∀ n : Nat, 60 ≤ n → timerAfter n = 0)
    ∧ (∀ n : Nat, 0 ≤ timerAfter n)
    ∧ tick 0 = (0, true) :=
  timer_countdown_spec true loginDraftState
    { success := true, message := "sent" } rfl (by decide)
    (fun h => absurd h (by decide))

/-- Claim C7: for a registration Initiate on a non-empty draft, the backend
call carries exactly the payload buildProfile constructs; the payload is the
patient shape with phone, dateOfBirth and address when the role is patient,
and the doctor shape with phone, specialization, licenseNumber and the
parsed experience when the role is doctor; no payload has both shapes at
once. -/
theorem registration_profile_shape (d : DialogState) (r : OpResult)
    (he : ¬ d.email = "") (hn : ¬ d.fullName = "") :
    (handleSendOTP false r d).2 =
      some (BackendCall.register d.email d.fullName d.role (buildProfile d))
    ∧ (d.role = UserRole.patient →
        buildProfile d = Profile.patientProfile d.phone d.dateOfBirth d.address)
    ∧ (d.role = UserRole.doctor →
        buildProfile d = Profile.doctorProfile d.phone d.specialization
          d.licenseNumber (parseIntOrZero d.experience))
    ∧ ¬(isPatientShape (buildProfile d) = true ∧
        isDoctorShape (buildProfile d) = true) := by
  refine ⟨?_, ?_, ?_, ?_⟩
  · unfold handleSendOTP
    rw [if_neg he, if_neg (fun hcontra => hn hcontra.2)]
    cases hr : r.success <;> simp
  · intro hrole
    simp only [buildProfile, hrole]
  · intro hrole
    simp only [buildProfile, hrole]
  · intro hcontra
    cases hb : buildProfile d <;>
      rw [hb] at hcontra <;>
      simp [isPatientShape, isDoctorShape] at hcontra

/-- Claim C7 witness: the doctor draft at concrete values. -/
theorem registration_profile_shape_witness :
    (handleSendOTP false { success := true, message := "ok" }
        doctorDraftState).2 =
      some (BackendCall.register doctorDraftState.email
        doctorDraftState.fullName doctorDraftState.role
        (buildProfile doctorDraftState))
    ∧ (doctorDraftState.role = UserRole.patient →
        buildProfile doctorDraftState = Profile.patientProfile
          doctorDraftState.phone doctorDraftState.dateOfBirth
          doctorDraftState.address)
    ∧ (doctorDraftState.role = UserRole.doctor →
        buildProfile doctorDraftState = Profile.doctorProfile
          doctorDraftState.phone doctorDraftState.specialization
          doctorDraftState.licenseNumber
          (parseIntOrZero doctorDraftState.experience))
    ∧ ¬(isPatientShape (buildProfile doctorDraftState) = true ∧
        isDoctorShape (buildProfile doctorDraftState) = true) :=
  registration_profile_shape doctorDraftState
    { success := true, message := "ok" } (by decide) (by decide)

/-- Claim C8: with a positive cooldown the Resend handler makes no backend
call and leaves the dialog state untouched; with the cooldown at 0 it is
exactly a re-run of Initiate, with isLogin taken from the currently active
tab and all previously entered fields as they stand. -/
theorem resend_cooldown_spec (d : DialogState) (r : OpResult) :
    (0 < d.timer → handleResendOTP r d = (d, none))
    ∧ (d.timer = 0 →
        handleResendOTP r d =
          handleSendOTP (decide (d.activeTab = Tab.login)) r d) := by
  constructor
  · intro hpos
    unfold handleResendOTP
    rw [if_neg (by omega)]
  · intro hzero
    unfold handleResendOTP
    rw [if_pos hzero]

/-- Claim C8 witness: with the concrete timer at 30, Resend is a no-op. -/
theorem resend_cooldown_spec_witness :
    handleResendOTP { success := true, message := "ok" } doctorDraftState =
      (doctorDraftState, none) :=
  (resend_cooldown_spec doctorDraftState
    { success := true, message := "ok" }).1 (by decide)

/-- Claim C9: from a form-step state with no entered code and no cooldown,
a successful Initiate followed by Back restores exactly the starting state
(form fields preserved, code and cooldown cleared), so re-running Initiate
with the same draft and backend result reproduces the identical backend
call and the identical state transition. -/
theorem back_then_reinitiate (isLogin : Bool) (d : DialogState)
    (r : OpResult) (hstep : d.step = Step.form) (hotp : d.otp = "")
    (htimer : d.timer = 0) (hload : d.isLoading = false)
    (hr : r.success = true) (he : ¬ d.email = "")
    (hn : isLogin = false → ¬ d.fullName = "") :
    handleBackToForm (handleSendOTP isLogin r d).1 = d
    ∧ handleSendOTP isLogin r (handleBackToForm (handleSendOTP isLogin r d).1)
        = handleSendOTP isLogin r d := by
  have h1 : handleBackToForm (handleSendOTP isLogin r d).1 = d := by
    rw [handleSendOTP_success isLogin d r hr he hn]
    unfold handleBackToForm
    cases d
    simp_all
  exact ⟨h1, by rw [h1]⟩

/-- Claim C9 witness: the login draft at a concrete successful result. -/
theorem back_then_reinitiate_witness :
    handleBackToForm (handleSendOTP true { success := true, message := "ok" }
        loginDraftState).1 = loginDraftState
    ∧ handleSendOTP true { success := true, message := "ok" }
        (handleBackToForm (handleSendOTP true
          { success := true, message := "ok" } loginDraftState).1)
        = handleSendOTP true { success := true, message := "ok" }
            loginDraftState :=
  back_then_reinitiate true loginDraftState
    { success := true, message := "ok" } rfl rfl rfl rfl rfl (by decide)
    (fun h => absurd h (by decide))

/-- A sanitized OTP entry is exactly 6 digits precisely when its length
is 6, since sanitization already removed every non-digit. -/
theorem isSixDigits_of_sanitized (raw : String) :
    isSixDigits (sanitizeOtpInput raw) = true ↔
      (sanitizeOtpInput raw).length = 6 := by
  simp only [isSixDigits, Bool.and_eq_true, beq_iff_eq,
    sanitize_all_digits raw, and_true]

/-- With a 6-character code the Verify handler always reaches a backend
call, on both tabs and for every backend outcome. -/
theorem handleVerifyOTP_call_some (backend : Except String AuthResult)
    (d : DialogState) (s : SessionState) (h : d.otp.length = 6) :
    (handleVerifyOTP backend d s).call ≠ none := by
  unfold handleVerifyOTP
  rw [if_neg (by omega)]
  split <;> dsimp only [] <;> split <;> simp

/-- Claim C3: for a stored OTP produced by the input sanitizer (non-digits
stripped, truncated to 6 characters), the Verify operation reaches the
backend verification call iff the stored string is exactly 6 digits; when
it is not, no backend call is made and the dialog, including its otp step,
is left entirely unchanged. -/
theorem otp_gate_spec (raw : String) (d : DialogState) (s : SessionState)
    (backend : Except String AuthResult)
    (hotp : d.otp = sanitizeOtpInput raw) :
    ((handleVerifyOTP backend d s).call ≠ none ↔ isSixDigits d.otp = true)
    ∧ (isSixDigits d.otp = false →
        handleVerifyOTP backend d s =
          { dialog := d, session := s, call := none, redirect := none }) := by
  have hdig : isSixDigits d.otp = true ↔ d.otp.length = 6 := by
    rw [hotp]
    exact isSixDigits_of_sanitized raw
  by_cases hlen : d.otp.length = 6
  · constructor
    · constructor
      · intro _
        exact hdig.mpr hlen
      · intro _
        exact handleVerifyOTP_call_some backend d s hlen
    · intro hfalse
      rw [hdig.mpr hlen] at hfalse
      exact absurd hfalse (by simp)
  · have hblocked : handleVerifyOTP backend d s =
        { dialog := d, session := s, call := none, redirect := none } := by
      unfold handleVerifyOTP
      rw [if_pos hlen]
    constructor
    · constructor
      · intro hcall
        rw [hblocked] at hcall
        exact absurd rfl hcall
      · intro hsix
        exact absurd (hdig.mp hsix) hlen
    · intro _
      exact hblocked

/-- The login dialog sitting on the otp step with the entry obtained by
sanitizing the raw keystrokes 12ab34cd56ef, which yields 123456. -/
def otpEntryState : DialogState :=
  { loginDraftState with step := Step.otp,
                         otp := sanitizeOtpInput "12ab34cd56ef" }

/-- Claim C3 witness: a raw entry with interleaved letters sanitizes to the
6 digits 123456 and the gate opens; applied at a concrete dialog, session
and backend outcome. -/
theorem otp_gate_spec_witness :
    ((handleVerifyOTP (Except.error "down") otpEntryState emptySession).call
        ≠ none ↔ isSixDigits otpEntryState.otp = true)
    ∧ (isSixDigits otpEntryState.otp = false →
        handleVerifyOTP (Except.error "down") otpEntryState emptySession =
          { dialog := otpEntryState, session := emptySession,
            call := none, redirect := none }) :=
  otp_gate_spec "12ab34cd56ef" otpEntryState emptySession
    (Except.error "down") rfl

end HealthVault
